import Mathlib

/-!
Verification of the Ironfish mining-pool core: a shallow embedding of
`miningNew/stratum/stratumClient.ts` (the `StratumClient` worker session and
the `MiningPool` orchestrator) and `miningNew/poolShares.ts`
(`MiningPoolShares`), with theorems checking the specification's claims
against the embedded code.

Modelling conventions:
* JS `number` values used as identifiers, randomness and timestamps are
  modelled as `Int` (so that `nextMiningRequestId - 1` behaves as in JS).
* `bigint` / 256-bit quantities are modelled as `Nat`.
* A `Buffer` holding a 32-byte big-endian integer (the block-header hash and
  the two targets) is modelled by the `Nat` it represents, with `toBytesBE`
  recovering its bytes. A JS relational comparison `bufA < bufB` does NOT
  compare bytes: `ToPrimitive` with hint number finds no primitive-returning
  `valueOf`, falls back to `Buffer.prototype.toString()` — a UTF-8 decode
  with U+FFFD replacement (WHATWG decoder) — and then compares the two
  strings lexicographically by UTF-16 code unit. The embedding models this
  faithfully (`utf8Decode`, `utf16Units`, `unitsLt`, `bufferLt`,
  `hashBelowTarget`); this order diverges from numeric big-endian order on
  reachable byte patterns.
* `blake3(mineableHeaderString(header))` is an opaque primitive (the hash
  function and the serializer are external to the sources); the embedding
  takes it as an arbitrary function `hashFn : Header → Nat`.
* A JS `Map` is modelled as an association list with `Map.get`/`Map.set`
  semantics (`findEntry` / `setEntry`).
* Side effects that leave the state (log lines, node submissions, stratum
  broadcasts, socket connect attempts, timer scheduling, miner callbacks)
  are returned as explicit outcome fields or `CEvent` lists.
* Asynchronous control flow is modelled at its suspension points: the body
  of `startConnecting` after `await connectSocket(...)` resolves is
  `startConnectingResume`, taking the attempt's outcome as an argument, and
  the reconnect `setTimeout` callback is `reconnectTimerFire`.
-/

namespace IronfishPool

/-- The mutable fields of `SerializedBlockTemplate.header` that the pool code
touches (`graffiti`, `randomness`, `target`, `timestamp`), plus one opaque
field `rest` standing for all the remaining header data that the pool never
writes. `target` is the per-job network target (the numeric value of the
32-byte hex string stored in `header.target`). -/
structure Header where
  graffiti : String
  randomness : Int
  target : Nat
  timestamp : Int
  rest : Nat
  deriving Repr, DecidableEq

/-- One share record, from `poolShares.ts`: `{timestamp, graffiti,
miningRequestId, randomness}`. -/
structure Share where
  timestamp : Int
  graffiti : String
  miningRequestId : Int
  randomness : Int
  deriving Repr, DecidableEq

/-- JS `Map.get` on an association list keyed by `Int`. -/
def findEntry {α : Type} : List (Int × α) → Int → Option α
  | [], _ => none
  | (k, v) :: rest, id => if k = id then some v else findEntry rest id

/-- JS `Map.set` on an association list keyed by `Int`: replace the entry if
the key is present, append otherwise. -/
def setEntry {α : Type} : List (Int × α) → Int → α → List (Int × α)
  | [], id, v => [(id, v)]
  | (k, w) :: rest, id, v =>
      if k = id then (id, v) :: rest else (k, w) :: setEntry rest id v

/-- Ledger operation `submitShare`: push a new share record, timestamped at
call time. -/
def submitShare (shares : List Share) (now : Int) (graffiti : String)
    (miningRequestId randomness : Int) : List Share :=
  shares ++ [{ timestamp := now, graffiti := graffiti,
               miningRequestId := miningRequestId, randomness := randomness }]

/-- Ledger operation `hasShare`: true iff an identical (graffiti,
miningRequestId, randomness) triple exists. -/
def hasShare (shares : List Share) (graffiti : String)
    (miningRequestId randomness : Int) : Bool :=
  shares.any fun el =>
    el.miningRequestId = miningRequestId ∧ el.randomness = randomness ∧
      el.graffiti = graffiti

/-- Ledger operation `totalShareCount`. -/
def totalShareCount (shares : List Share) : Nat := shares.length

/-- Ledger operation `graffitiShareCount`. -/
def graffitiShareCount (shares : List Share) (graffiti : String) : Nat :=
  (shares.filter fun share => share.graffiti = graffiti).length

/-- Ledger operation `totalShareCountSince`: shares with
`timestamp > timeCutoff`. -/
def totalShareCountSince (shares : List Share) (timeCutoff : Int) : Nat :=
  (shares.filter fun share => timeCutoff < share.timestamp).length

/-- Ledger operation `graffitiShareCountSince`. -/
def graffitiShareCountSince (shares : List Share) (graffiti : String)
    (timeCutoff : Int) : Nat :=
  (shares.filter fun share =>
    timeCutoff < share.timestamp ∧ share.graffiti = graffiti).length

/-- Modelled from the spec: `BigIntUtils.toBytesBE` (from `utils/bigint`,
which is not among the sources) — the spec says the pool target is
"serialized as 32 big-endian bytes". Byte `i`, most significant first, of the
`size`-byte big-endian encoding of `n`. -/
def toBytesBE (n : Nat) : Nat → List Nat
  | 0 => []
  | s + 1 => (n / 256 ^ s % 256) :: toBytesBE n s

/-- Numeric value of a big-endian byte list (left inverse of `toBytesBE`). -/
def fromBytesBE (bs : List Nat) : Nat :=
  bs.foldl (fun acc b => acc * 256 + b) 0

/-- Mid-sequence state of the WHATWG UTF-8 decoder: the accumulated code
point, the number of continuation bytes still needed, and the valid bounds
for the next byte. -/
structure Utf8State where
  cp : Nat
  needed : Nat
  lower : Nat
  upper : Nat
  deriving Repr, DecidableEq

/-- Dispatch of one byte in fresh decoder state (WHATWG UTF-8 decoder):
emitted code points plus the mid-sequence state entered, if any. ASCII is
emitted as is; `C2–DF`, `E0–EF` and `F0–F4` open 2-, 3- and 4-byte
sequences (with the `E0`/`ED`/`F0`/`F4` bounds that exclude overlongs and
surrogates); anything else (`80–C1`, `F5–FF`) is one U+FFFD. -/
def leadByte (b : Nat) : List Nat × Option Utf8State :=
  if b ≤ 0x7F then ([b], none)
  else if 0xC2 ≤ b ∧ b ≤ 0xDF then ([], some ⟨b % 0x20, 1, 0x80, 0xBF⟩)
  else if 0xE0 ≤ b ∧ b ≤ 0xEF then
    ([], some ⟨b % 0x10, 2, if b = 0xE0 then 0xA0 else 0x80,
      if b = 0xED then 0x9F else 0xBF⟩)
  else if 0xF0 ≤ b ∧ b ≤ 0xF4 then
    ([], some ⟨b % 0x8, 3, if b = 0xF0 then 0x90 else 0x80,
      if b = 0xF4 then 0x8F else 0xBF⟩)
  else ([0xFFFD], none)

/-- The WHATWG UTF-8 decoder loop with U+FFFD replacement, as used by
`Buffer.prototype.toString()` (V8). An invalid continuation byte emits one
U+FFFD and the byte is reprocessed in fresh state (maximal-subpart
replacement, here inlined as `leadByte`); end of input mid-sequence emits
one U+FFFD. -/
def utf8Loop : Option Utf8State → List Nat → List Nat
  | none, [] => []
  | some _, [] => [0xFFFD]
  | none, b :: rest =>
      (leadByte b).1 ++ utf8Loop (leadByte b).2 rest
  | some st, b :: rest =>
      if st.lower ≤ b ∧ b ≤ st.upper then
        if st.needed = 1 then (st.cp * 64 + b % 64) :: utf8Loop none rest
        else utf8Loop (some ⟨st.cp * 64 + b % 64, st.needed - 1, 0x80, 0xBF⟩) rest
      else 0xFFFD :: ((leadByte b).1 ++ utf8Loop (leadByte b).2 rest)

/-- `Buffer.prototype.toString()`: decode the bytes as UTF-8 with U+FFFD
replacement, yielding the string's code points. -/
def utf8Decode (bytes : List Nat) : List Nat := utf8Loop none bytes

/-- A JS string as its UTF-16 code units: code points below `0x10000` are one
unit, the rest a surrogate pair. -/
def utf16Units : List Nat → List Nat
  | [] => []
  | cp :: rest =>
      if cp < 0x10000 then cp :: utf16Units rest
      else
        (0xD800 + (cp - 0x10000) / 0x400) :: (0xDC00 + (cp - 0x10000) % 0x400) ::
          utf16Units rest

/-- JS string `<`: lexicographic comparison of UTF-16 code-unit sequences
(a strict prefix is smaller). -/
def unitsLt : List Nat → List Nat → Bool
  | [], [] => false
  | [], _ :: _ => true
  | _ :: _, [] => false
  | a :: as, b :: bs => if a < b then true else if b < a then false else unitsLt as bs

/-- JS `bufA < bufB` on Buffers: `ToPrimitive` falls back to
`Buffer.prototype.toString()` (UTF-8 decode with replacement) on both sides,
then the strings are compared by UTF-16 code unit. -/
def bufferLt (a b : List Nat) : Bool :=
  unitsLt (utf16Units (utf8Decode a)) (utf16Units (utf8Decode b))

/-- The comparison `submitWork` performs between the 32-byte hash buffer and
a 32-byte target buffer, on the numeric values the buffers represent. -/
def hashBelowTarget (hash target : Nat) : Bool :=
  bufferLt (toBytesBE hash 32) (toBytesBE target 32)

/-- The `MiningPool` fields the embedded operations read or write. `target`
is the numeric value of the 32-byte pool-target buffer. -/
structure MiningPool where
  started : Bool
  connectWarned : Bool
  nextMiningRequestId : Int
  miningRequestBlocks : List (Int × Header)
  difficulty : Nat
  target : Nat
  shares : List Share
  deriving Repr, DecidableEq

/-- The constructor body of `MiningPool`: `difficulty = BigInt(1_850_000) * 2n`,
`target` the numeric value of `toBytesBE(2n ** 256n / difficulty, 32)`. -/
def poolInit : MiningPool where
  started := false
  connectWarned := false
  nextMiningRequestId := 0
  miningRequestBlocks := []
  difficulty := 1850000 * 2
  target := 2 ^ 256 / (1850000 * 2)
  shares := []

/-- Result of one `submitWork` call: the updated pool state plus the
observable effects (log lines, whether `shares.submitShare` ran, and the
block handed to `rpc.submitBlock`, if any). -/
structure SubmitOutcome where
  pool : MiningPool
  logStale : Bool
  logInvalidRequest : Bool
  shareSubmitted : Bool
  nodeSubmitted : Bool
  submittedBlock : Option Header
  deriving Repr, DecidableEq

/-- Orchestrator operation
`MiningPool.submitWork(client, miningRequestId, randomness, graffiti)`.
Control flow from the source: reject stale ids (`miningRequestId !==
nextMiningRequestId - 1`); reject ids with no stored template; otherwise
write the submission's graffiti and randomness into the stored template
(JS mutates the object held in `miningRequestBlocks` in place), hash the
header, record a share when `hashedHeader < this.target` and submit the
block to the node when
`hashedHeader < Buffer.from(blockTemplate.header.target, 'hex')`. The two
comparisons are separate `if` statements, and both are JS Buffer relational
comparisons, embedded by `hashBelowTarget`. -/
def submitWork (hashFn : Header → Nat) (now : Int) (p : MiningPool)
    (miningRequestId randomness : Int) (graffiti : String) : SubmitOutcome :=
  if miningRequestId ≠ p.nextMiningRequestId - 1 then
    { pool := p, logStale := true, logInvalidRequest := false,
      shareSubmitted := false, nodeSubmitted := false, submittedBlock := none }
  else
    match findEntry p.miningRequestBlocks miningRequestId with
    | none =>
        { pool := p, logStale := false, logInvalidRequest := true,
          shareSubmitted := false, nodeSubmitted := false, submittedBlock := none }
    | some blockTemplate =>
        let mutated : Header :=
          { blockTemplate with graffiti := graffiti, randomness := randomness }
        let p1 : MiningPool :=
          { p with miningRequestBlocks :=
              setEntry p.miningRequestBlocks miningRequestId mutated }
        let hashedHeader := hashFn mutated
        let p2 : MiningPool :=
          if hashBelowTarget hashedHeader p1.target then
            { p1 with shares :=
                submitShare p1.shares now graffiti miningRequestId randomness }
          else p1
        { pool := p2
          logStale := false
          logInvalidRequest := false
          shareSubmitted := hashBelowTarget hashedHeader p1.target
          nodeSubmitted := hashBelowTarget hashedHeader mutated.target
          submittedBlock :=
            if hashBelowTarget hashedHeader mutated.target then some mutated
            else none }

/-- Orchestrator operation `MiningPool.distributeNewBlock(newBlock)`: assign
`nextMiningRequestId` (post-incrementing it), store the template under that
id, and broadcast it. Returns the new state and the broadcast mining request
id. -/
def distributeNewBlock (p : MiningPool) (newBlock : Header) : MiningPool × Int :=
  let miningRequestId := p.nextMiningRequestId
  ({ p with
      nextMiningRequestId := miningRequestId + 1
      miningRequestBlocks := setEntry p.miningRequestBlocks miningRequestId newBlock },
    miningRequestId)

/-- Orchestrator operation `MiningPool.recalculateTarget()`: look up the
latest block (`nextMiningRequestId - 1`; `none` models the
`Assert.isNotUndefined` failure), rewrite its `target` and `timestamp` (in JS
this mutates the stored object), and pass the updated template to
`distributeNewBlock`. The new target value
(`Target.fromDifficulty(Target.calculateDifficulty(...))`, an external
consensus primitive) and the wall-clock time are parameters. -/
def recalculateTarget (newTargetValue : Nat) (newTime : Int)
    (p : MiningPool) : Option (MiningPool × Int) :=
  match findEntry p.miningRequestBlocks (p.nextMiningRequestId - 1) with
  | none => none
  | some latestBlock =>
      let updated : Header :=
        { latestBlock with target := newTargetValue, timestamp := newTime }
      let p1 : MiningPool :=
        { p with miningRequestBlocks :=
            setEntry p.miningRequestBlocks (p.nextMiningRequestId - 1) updated }
      some (distributeNewBlock p1 updated)

/-- A pool that has distributed exactly one job (id 0), used to exercise the
retarget tick. -/
def demoRetargetPool : MiningPool where
  started := true
  connectWarned := false
  nextMiningRequestId := 1
  miningRequestBlocks :=
    [(0, { graffiti := "00", randomness := 0, target := 50, timestamp := 7, rest := 11 })]
  difficulty := 3700000
  target := 10
  shares := []

/-- Source constant `HASHRATE_TIME_CUTOFF_SECONDS = 60`. -/
def hashrateCutoffSeconds : Nat := 60

/-- Source constant `HASHRATE_TIME_CUTOFF_MILLISECONDS`. -/
def hashrateCutoffMilliseconds : Nat := hashrateCutoffSeconds * 1000

/-- Orchestrator operation `MiningPool.hashrate()`: shares in the lookback
window times the pool difficulty, divided (bigint floor division) by the
window length in seconds. -/
def hashrate (p : MiningPool) (now : Int) : Nat :=
  let timeCutoff := now - (hashrateCutoffMilliseconds : Int)
  totalShareCountSince p.shares timeCutoff * p.difficulty / hashrateCutoffSeconds

/-- Orchestrator operation `MiningPool.graffitiHashrate(graffiti)`: the same
formula restricted to one graffiti. -/
def graffitiHashrate (p : MiningPool) (now : Int) (graffiti : String) : Nat :=
  let timeCutoff := now - (hashrateCutoffMilliseconds : Int)
  graffitiShareCountSince p.shares graffiti timeCutoff * p.difficulty /
    hashrateCutoffSeconds

/-- Observable effects of the worker session and of the pool's node-connect
loop: log lines, socket connect attempts, retry timers, outbound messages,
and calls into the miner. -/
inductive CEvent where
  | socketConnectAttempt
  | logConnectFailed
  | scheduleRetry (delayMs : Nat)
  | connectedTransition
  | logConnected
  | sent (method : String)
  | minerSetTarget (t : String)
  | minerNewWork
  | minerWaitForWork
  | minerSetGraffiti (g : String)
  | logUnrecognizedMethod (m : String)
  | logUnrecognizedResponseId
  | logUnrecognizedResponseType
  | logUnrecognizedMessage
  | logDisconnected
  deriving Repr, DecidableEq

/-- True for retry-timer events, whatever the delay. -/
def isRetry : CEvent → Bool
  | .scheduleRetry _ => true
  | _ => false

/-- The `StratumClient` fields the embedded operations read or write.
`pendingReconnect` models `connectTimeout` holding a live timer;
`socketEnded` records that `socket.end()` was called. -/
structure StratumClient where
  started : Bool
  connected : Bool
  connectWarned : Bool
  pendingReconnect : Bool
  socketEnded : Bool
  requestsSent : List (Int × String)
  nextMessageId : Int
  graffiti : String
  deriving Repr, DecidableEq

/-- The `StratumClient` constructor. -/
def mkClient (graffiti : String) : StratumClient where
  started := false
  connected := false
  connectWarned := false
  pendingReconnect := false
  socketEnded := false
  requestsSent := []
  nextMessageId := 0
  graffiti := graffiti

/-- Session operation `send(message)`: drop the message when not connected,
otherwise record the request id → method correlation and write to the
socket. -/
def send (c : StratumClient) (id : Int) (method : String) :
    StratumClient × List CEvent :=
  if c.connected then
    ({ c with requestsSent := setEntry c.requestsSent id method }, [.sent method])
  else (c, [])

/-- Session operation `subscribe(graffiti)`: build a `mining.subscribe`
request with id `nextMessageId++` and send it. -/
def subscribe (c : StratumClient) (graffiti : String) :
    StratumClient × List CEvent :=
  send { c with nextMessageId := c.nextMessageId + 1 } c.nextMessageId
    "mining.subscribe"

/-- Session operation `submit(miningRequestId, randomness, graffiti)`: build
a `mining.submit` request with id `nextMessageId++` and send it. -/
def submit (c : StratumClient) (miningRequestId randomness : Int)
    (graffiti : String) : StratumClient × List CEvent :=
  send { c with nextMessageId := c.nextMessageId + 1 } c.nextMessageId
    "mining.submit"

/-- Session handler `onConnect()`: mark connected, log, and subscribe with
the session's current graffiti. -/
def onConnect (c : StratumClient) : StratumClient × List CEvent :=
  let c1 : StratumClient := { c with connected := true }
  let r := subscribe c1 c1.graffiti
  (r.1, [.connectedTransition, .logConnected] ++ r.2)

/-- The body of `startConnecting()` after `await connectSocket(...)`
resolves, with the attempt's outcome as an argument: bail out if
`this.started` is false; on failure warn only when `connectWarned` is still
false and schedule a 5000 ms retry; on success clear `connectWarned` and run
`onConnect`. -/
def startConnectingResume (c : StratumClient) (connectSucceeded : Bool) :
    StratumClient × List CEvent :=
  if c.started = false then (c, [])
  else if connectSucceeded = false then
    if c.connectWarned = false then
      ({ c with connectWarned := true, pendingReconnect := true },
        [.logConnectFailed, .scheduleRetry 5000])
    else
      ({ c with pendingReconnect := true }, [.scheduleRetry 5000])
  else onConnect { c with connectWarned := false }

/-- The reconnect timer firing: the callback re-enters `startConnecting()`,
whose first action — before any check — is the socket connect attempt
(`connectSocket` calls `socket.connect`). -/
def reconnectTimerFire (c : StratumClient) : StratumClient × List CEvent :=
  ({ c with pendingReconnect := false }, [.socketConnectAttempt])

/-- Session operation `start()`: idempotent; set `started` and kick off the
connect loop (whose first action is a socket connect attempt). -/
def start (c : StratumClient) : StratumClient × List CEvent :=
  if c.started then (c, [])
  else ({ c with started := true }, [.socketConnectAttempt])

/-- Session operation `stop()` — from the source, its whole body is
`this.socket.end()`: no flag is reset and no timer is cleared. -/
def stop (c : StratumClient) : StratumClient :=
  { c with socketEnded := true }

/-- Session handler `onDisconnect`: mark disconnected, tell the miner to
wait, log, and re-enter `startConnecting()` (a socket connect attempt).
`requestsSent` is not touched. -/
def onDisconnect (c : StratumClient) : StratumClient × List CEvent :=
  ({ c with connected := false },
    [.minerWaitForWork, .logDisconnected, .socketConnectAttempt])

/-- A run of the session's connect loop over a list of attempt outcomes:
each entry resolves one `connectSocket` attempt; after a failure (while
started) the retry timer fires and the loop continues with the next
outcome. -/
def runConnectLoop (c : StratumClient) : List Bool → StratumClient × List CEvent
  | [] => (c, [])
  | outcome :: rest =>
      let r1 := startConnectingResume c outcome
      if c.started = true ∧ outcome = false then
        let r2 := reconnectTimerFire r1.1
        let r3 := runConnectLoop r2.1 rest
        (r3.1, r1.2 ++ r2.2 ++ r3.2)
      else (r1.1, r1.2)

/-- A parsed inbound JSON payload: `method` and `id` may each be present or
absent; `result` is the response payload used by the subscribe response;
`params0` is the first parameter (the target hex for `mining.set_target`). -/
structure StratumMsg where
  method : Option String
  id : Option Int
  result : String
  params0 : String
  deriving Repr, DecidableEq

/-- One newline-separated piece of an inbound data chunk: either a payload
that parses, or one on which `JSON.parse` throws. -/
inductive WireLine where
  | malformed
  | msg (m : StratumMsg)
  deriving Repr, DecidableEq

/-- An exception escaping the `onData` handler. -/
inductive JsError where
  | jsonParse
  deriving Repr, DecidableEq

/-- Session handler `onData(data)` over the already-split lines of a chunk:
dispatch each parsed payload in order. A `JSON.parse` failure is not caught —
the exception escapes and the remaining lines are abandoned. In the response
branch, an id with no `requestsSent` entry logs and executes `return`
(not `continue`), abandoning the remaining lines. -/
def onDataLines (c : StratumClient) :
    List WireLine → StratumClient × List CEvent × Option JsError
  | [] => (c, [], none)
  | .malformed :: _ => (c, [], some .jsonParse)
  | .msg m :: rest =>
      match m.method with
      | some mth =>
          if mth = "mining.set_target" then
            let r := onDataLines c rest
            (r.1, .minerSetTarget m.params0 :: r.2.1, r.2.2)
          else if mth = "mining.notify" then
            let r := onDataLines c rest
            (r.1, .minerNewWork :: r.2.1, r.2.2)
          else if mth = "mining.wait_for_work" then
            let r := onDataLines c rest
            (r.1, .minerWaitForWork :: r.2.1, r.2.2)
          else
            let r := onDataLines c rest
            (r.1, .logUnrecognizedMethod mth :: r.2.1, r.2.2)
      | none =>
          match m.id with
          | some i =>
              match findEntry c.requestsSent i with
              | none => (c, [.logUnrecognizedResponseId], none)
              | some responseType =>
                  if responseType = "mining.subscribe" then
                    let c1 : StratumClient := { c with graffiti := m.result }
                    let r := onDataLines c1 rest
                    (r.1, .minerSetGraffiti m.result :: r.2.1, r.2.2)
                  else
                    let r := onDataLines c rest
                    (r.1, .logUnrecognizedResponseType :: r.2.1, r.2.2)
          | none =>
              let r := onDataLines c rest
              (r.1, .logUnrecognizedMessage :: r.2.1, r.2.2)

/-- The body of the orchestrator's `startConnectingRpc()` after
`await rpc.tryConnect()` resolves: bail out if stopped; on failure warn only
on the first consecutive failure and schedule a 5000 ms retry; on success
clear the warned flag, log, and begin processing blocks. -/
def startConnectingRpcResume (p : MiningPool) (connectSucceeded : Bool) :
    MiningPool × List CEvent :=
  if p.started = false then (p, [])
  else if connectSucceeded = false then
    if p.connectWarned = false then
      ({ p with connectWarned := true },
        [.logConnectFailed, .scheduleRetry 5000])
    else (p, [.scheduleRetry 5000])
  else ({ p with connectWarned := false }, [.connectedTransition, .logConnected])

/-- A run of the orchestrator's node connect loop over a list of attempt
outcomes (the retry timer re-enters `startConnectingRpc`, whose first action
is the `rpc.tryConnect` attempt). -/
def runRpcConnectLoop (p : MiningPool) : List Bool → MiningPool × List CEvent
  | [] => (p, [])
  | outcome :: rest =>
      let r1 := startConnectingRpcResume p outcome
      if p.started = true ∧ outcome = false then
        let r2 := runRpcConnectLoop r1.1 rest
        (r2.1, r1.2 ++ [.socketConnectAttempt] ++ r2.2)
      else (r1.1, r1.2)

/-- The worker session after `start()`, one failed connect attempt (so a
reconnect-delay timer is pending), and then `stop()`. -/
def stoppedMidReconnect : StratumClient :=
  stop (startConnectingResume (start (mkClient "ab")).1 false).1

/-! ## Generic lemmas about the embedded primitives -/

theorem findEntry_setEntry_self {α : Type} (m : List (Int × α)) (id : Int) (v : α) :
    findEntry (setEntry m id v) id = some v := by
  induction m with
  | nil => simp [setEntry, findEntry]
  | cons hd tl ih =>
      obtain ⟨k, w⟩ := hd
      by_cases hk : k = id
      · simp [setEntry, findEntry, hk]
      · simp [setEntry, findEntry, hk, ih]

theorem toBytesBE_length (n : Nat) : ∀ s, (toBytesBE n s).length = s := by
  intro s
  induction s with
  | zero => rfl
  | succ s ih => simp [toBytesBE, ih]

theorem foldl_toBytesBE (n : Nat) :
    ∀ (s a : Nat),
      (toBytesBE n s).foldl (fun acc b => acc * 256 + b) a = a * 256 ^ s + n % 256 ^ s := by
  intro s
  induction s with
  | zero => intro a; simp [toBytesBE, fromBytesBE, Nat.mod_one]
  | succ s ih =>
      intro a
      have hsplit : n % 256 ^ (s + 1) = n % 256 ^ s + 256 ^ s * (n / 256 ^ s % 256) := by
        rw [pow_succ]
        conv_lhs => rw [← Nat.div_add_mod (n % (256 ^ s * 256)) (256 ^ s)]
        rw [Nat.mod_mul_right_div_self, Nat.mod_mod_of_dvd _ (dvd_mul_right _ _)]
        ring
      simp only [toBytesBE, List.foldl_cons, ih]
      rw [hsplit]
      ring

theorem fromBytesBE_toBytesBE (n s : Nat) (h : n < 256 ^ s) :
    fromBytesBE (toBytesBE n s) = n := by
  rw [fromBytesBE, foldl_toBytesBE]
  simp [Nat.mod_eq_of_lt h]

/-- Helper: the value of `submitWork` on a fresh (current-job) submission
with a stored template, fully unfolded. -/
theorem submitWork_fresh_eq (hashFn : Header → Nat) (now : Int) (p : MiningPool)
    (miningRequestId randomness : Int) (graffiti : String) (tmpl : Header)
    (hid : miningRequestId = p.nextMiningRequestId - 1)
    (hfind : findEntry p.miningRequestBlocks miningRequestId = some tmpl) :
    submitWork hashFn now p miningRequestId randomness graffiti =
      (let mutated : Header :=
        { tmpl with graffiti := graffiti, randomness := randomness }
       let p1 : MiningPool :=
        { p with miningRequestBlocks :=
            setEntry p.miningRequestBlocks miningRequestId mutated }
       { pool :=
          if hashBelowTarget (hashFn mutated) p.target then
            { p1 with shares :=
                submitShare p1.shares now graffiti miningRequestId randomness }
          else p1
         logStale := false
         logInvalidRequest := false
         shareSubmitted := hashBelowTarget (hashFn mutated) p.target
         nodeSubmitted := hashBelowTarget (hashFn mutated) mutated.target
         submittedBlock :=
          if hashBelowTarget (hashFn mutated) mutated.target then some mutated
          else none }) := by
  rw [submitWork, if_neg (by simp [hid]), hfind]

/-- Helper: `onData` never removes a `requestsSent` entry — the whole
dispatch loop leaves the correlation map unchanged (the subscribe-response
branch only rewrites `graffiti`). -/
theorem onDataLines_requestsSent (lines : List WireLine) :
    ∀ c : StratumClient, (onDataLines c lines).1.requestsSent = c.requestsSent := by
  induction lines with
  | nil => intro c; rfl
  | cons line rest ih =>
      intro c
      cases line with
      | malformed => rfl
      | msg m =>
          cases hm : m.method with
          | some mth =>
              by_cases h1 : mth = "mining.set_target"
              · simp [onDataLines, hm, h1, ih]
              · by_cases h2 : mth = "mining.notify"
                · simp [onDataLines, hm, h1, h2, ih]
                · by_cases h3 : mth = "mining.wait_for_work"
                  · simp [onDataLines, hm, h1, h2, h3, ih]
                  · simp [onDataLines, hm, h1, h2, h3, ih]
          | none =>
              cases hid : m.id with
              | some i =>
                  cases hf : findEntry c.requestsSent i with
                  | none => simp [onDataLines, hm, hid, hf]
                  | some rt =>
                      by_cases hrt : rt = "mining.subscribe"
                      · simp [onDataLines, hm, hid, hf, hrt, ih]
                      · simp [onDataLines, hm, hid, hf, hrt, ih]
              | none => simp [onDataLines, hm, hid, ih]

/-- Helper: the session connect loop from a mid-streak state (already
warned): no further warning, `M` retries all at 5000 ms, one connected
transition, warned flag cleared by the final success. -/
theorem runConnectLoop_warned (M : Nat) :
    ∀ c : StratumClient, c.started = true → c.connectWarned = true →
      (runConnectLoop c (List.replicate M false ++ [true])).2.count .logConnectFailed = 0 ∧
      (runConnectLoop c (List.replicate M false ++ [true])).2.count .connectedTransition = 1 ∧
      (runConnectLoop c (List.replicate M false ++ [true])).2.count (.scheduleRetry 5000) = M ∧
      ((runConnectLoop c (List.replicate M false ++ [true])).2.filter isRetry).length = M ∧
      (runConnectLoop c (List.replicate M false ++ [true])).1.connectWarned = false := by
  induction M with
  | zero =>
      intro c hs hw
      simp [runConnectLoop, startConnectingResume, onConnect, subscribe, send, hs,
        isRetry, List.count_cons]
  | succ M ih =>
      intro c hs hw
      have hstep : runConnectLoop c (List.replicate (M + 1) false ++ [true]) =
          ((runConnectLoop { c with pendingReconnect := false }
              (List.replicate M false ++ [true])).1,
            CEvent.scheduleRetry 5000 :: CEvent.socketConnectAttempt ::
              (runConnectLoop { c with pendingReconnect := false }
                (List.replicate M false ++ [true])).2) := by
        simp [List.replicate_succ, runConnectLoop, startConnectingResume,
          reconnectTimerFire, hs, hw]
      obtain ⟨h1, h2, h3, h4, h5⟩ := ih { c with pendingReconnect := false }
        (by simp [hs]) (by simp [hw])
      rw [hstep]
      refine ⟨?_, ?_, ?_, ?_, h5⟩ <;>
        simp [List.count_cons, isRetry, h1, h2, h3, h4]

/-- Helper: the orchestrator's node connect loop from a mid-streak state. -/
theorem runRpcConnectLoop_warned (M : Nat) :
    ∀ p : MiningPool, p.started = true → p.connectWarned = true →
      (runRpcConnectLoop p (List.replicate M false ++ [true])).2.count .logConnectFailed = 0 ∧
      (runRpcConnectLoop p (List.replicate M false ++ [true])).2.count .connectedTransition = 1 ∧
      (runRpcConnectLoop p (List.replicate M false ++ [true])).2.count (.scheduleRetry 5000) = M ∧
      ((runRpcConnectLoop p (List.replicate M false ++ [true])).2.filter isRetry).length = M ∧
      (runRpcConnectLoop p (List.replicate M false ++ [true])).1.connectWarned = false := by
  induction M with
  | zero =>
      intro p hs hw
      simp [runRpcConnectLoop, startConnectingRpcResume, hs, isRetry, List.count_cons]
  | succ M ih =>
      intro p hs hw
      have hstep : runRpcConnectLoop p (List.replicate (M + 1) false ++ [true]) =
          ((runRpcConnectLoop p (List.replicate M false ++ [true])).1,
            CEvent.scheduleRetry 5000 :: CEvent.socketConnectAttempt ::
              (runRpcConnectLoop p (List.replicate M false ++ [true])).2) := by
        simp [List.replicate_succ, runRpcConnectLoop, startConnectingRpcResume, hs, hw]
      obtain ⟨h1, h2, h3, h4, h5⟩ := ih p hs hw
      rw [hstep]
      refine ⟨?_, ?_, ?_, ?_, h5⟩ <;>
        simp [List.count_cons, isRetry, h1, h2, h3, h4]

/-! ## Claim C1: submitWork share/node-submission logic -/

/-- C1 counterexample: the program's comparison is not numeric. The pool
target `floor(2^256 / 3,700,000)` has bytes `00 00 04 88 cd 4e …`; the hash
with bytes `00 00 04 87 ff ff 00…00` (value `0x0487FFFF * 256^26`) is
numerically below it, yet under the code's Buffer `<` (UTF-8-decoded string
comparison) the hash string `00 00 04 FFFD FFFD FFFD …` is NOT below the
target string `00 00 04 FFFD FFFD 4E …`, so `submitWork` records no share
for it — refuting "a share is appended if the header hash is below the pool
target". -/
theorem submitWork_comparison_counterexample :
    let tmpl : Header :=
      { graffiti := "00", randomness := 0, target := 3, timestamp := 7, rest := 11 }
    let p : MiningPool :=
      { started := true, connectWarned := false, nextMiningRequestId := 1,
        miningRequestBlocks := [(0, tmpl)], difficulty := 3700000,
        target := 2 ^ 256 / 3700000, shares := [] }
    let out := submitWork (fun _ => 76021759 * 256 ^ 26) 100 p 0 2 "ab"
    76021759 * 256 ^ 26 < p.target ∧
    out.shareSubmitted = false ∧
    out.pool.shares = [] := by
  decide

/-- C1 amended: for a `submitWork` call whose `miningRequestId` is the latest
distributed job id (with a stored template), exactly one share is appended
iff the hash buffer compares below the pool-target buffer under the code's
comparison — JS `<` on Buffers, i.e. lexicographic comparison of the
UTF-8-decoded (U+FFFD-replacement) strings, `hashBelowTarget` — a node
submit occurs iff the hash buffer compares below the job's network-target
buffer under the same comparison, and the two decisions are independent
(each against its own target). -/
theorem submitWork_share_and_block_iff (hashFn : Header → Nat) (now : Int)
    (p : MiningPool) (miningRequestId randomness : Int) (graffiti : String)
    (tmpl : Header)
    (hid : miningRequestId = p.nextMiningRequestId - 1)
    (hfind : findEntry p.miningRequestBlocks miningRequestId = some tmpl) :
    let mutated : Header := { tmpl with graffiti := graffiti, randomness := randomness }
    let h := hashFn mutated
    let out := submitWork hashFn now p miningRequestId randomness graffiti
    (out.shareSubmitted = true ↔ hashBelowTarget h p.target = true) ∧
    (hashBelowTarget h p.target = true →
      out.pool.shares = p.shares ++
        [{ timestamp := now, graffiti := graffiti,
           miningRequestId := miningRequestId, randomness := randomness }]) ∧
    (hashBelowTarget h p.target = false → out.pool.shares = p.shares) ∧
    (out.nodeSubmitted = true ↔ hashBelowTarget h tmpl.target = true) := by
  intro mutated h out
  have hout : out = submitWork hashFn now p miningRequestId randomness graffiti := rfl
  rw [submitWork, if_neg (by simp [hid]), hfind] at hout
  by_cases hpool : hashBelowTarget h p.target = true
  · refine ⟨?_, fun _ => ?_, fun hc => ?_, ?_⟩
    · simp [hout, hpool, mutated, h]
    · simp [hout, hpool, mutated, h, submitShare]
    · rw [hpool] at hc; cases hc
    · simp [hout, mutated, h]
  · have hpool' : hashBelowTarget h p.target = false := by simpa using hpool
    refine ⟨?_, fun hc => ?_, fun _ => ?_, ?_⟩
    · simp [hout, hpool', mutated, h]
    · rw [hpool'] at hc; cases hc
    · simp [hout, hpool', mutated, h]
    · simp [hout, mutated, h]

/-- Witness for C1's amended theorem at a concrete input: one distributed
job, a hash (bytes `…05`) below the pool target (bytes `…0A`) but not below
the network target (bytes `…03`) under the Buffer comparison (all-ASCII
bytes, where the string order agrees with byte order): the share is recorded
and no node submission happens. -/
theorem submitWork_share_and_block_iff_witness :
    let tmpl : Header :=
      { graffiti := "00", randomness := 0, target := 3, timestamp := 7, rest := 11 }
    let p : MiningPool :=
      { started := true, connectWarned := false, nextMiningRequestId := 1,
        miningRequestBlocks := [(0, tmpl)], difficulty := 3700000, target := 10,
        shares := [] }
    let hashFn : Header → Nat := fun _ => 5
    let out := submitWork hashFn 100 p 0 2 "ab"
    (out.shareSubmitted = true ↔ hashBelowTarget 5 10 = true) ∧
    (hashBelowTarget 5 10 = true →
      out.pool.shares = [] ++
        [{ timestamp := 100, graffiti := "ab", miningRequestId := 0, randomness := 2 }]) ∧
    (hashBelowTarget 5 10 = false → out.pool.shares = []) ∧
    (out.nodeSubmitted = true ↔ hashBelowTarget 5 3 = true) := by
  intro tmpl p hashFn out
  exact submitWork_share_and_block_iff hashFn 100 p 0 2 "ab" tmpl (by decide) (by decide)

/-! ## Claim C2: stale submissions are rejected without side effect -/

/-- C2. A `submitWork` call whose `miningRequestId` is not
`nextMiningRequestId - 1` is rejected with no side effect: the pool state is
unchanged, no share is recorded and no node submission occurs, whatever the
hash would have been. -/
theorem submitWork_stale_rejected (hashFn : Header → Nat) (now : Int)
    (p : MiningPool) (miningRequestId randomness : Int) (graffiti : String)
    (hid : miningRequestId ≠ p.nextMiningRequestId - 1) :
    submitWork hashFn now p miningRequestId randomness graffiti =
      { pool := p, logStale := true, logInvalidRequest := false,
        shareSubmitted := false, nodeSubmitted := false, submittedBlock := none } := by
  rw [submitWork, if_pos hid]

/-- Witness for C2: latest job id is 5 (`nextMiningRequestId = 6`), submitting
against superseded id 4 with a hash (0) that would beat every target still
changes nothing. -/
theorem submitWork_stale_rejected_witness :
    let tmpl : Header :=
      { graffiti := "00", randomness := 0, target := 3, timestamp := 7, rest := 11 }
    let p : MiningPool :=
      { started := true, connectWarned := false, nextMiningRequestId := 6,
        miningRequestBlocks := [(4, tmpl), (5, tmpl)], difficulty := 3700000,
        target := 10, shares := [] }
    submitWork (fun _ => 0) 100 p 4 2 "ab" =
      { pool := p, logStale := true, logInvalidRequest := false,
        shareSubmitted := false, nodeSubmitted := false, submittedBlock := none } := by
  intro tmpl p
  exact submitWork_stale_rejected (fun _ => 0) 100 p 4 2 "ab" (by decide)

/-! ## Claim C3: retarget tick and job identity -/

/-- C3 counterexample: on `demoRetargetPool` (current job id 0,
`nextMiningRequestId = 1`) a retarget tick advances `nextMiningRequestId`
to 2 and broadcasts mining request id 1, not the current job's id 0: the tick
does not preserve job identity. -/
theorem recalculateTarget_counterexample :
    (recalculateTarget 42 100 demoRetargetPool).map
        (fun r => (r.1.nextMiningRequestId, r.2)) = some (2, 1) ∧
    some ((2 : Int), (1 : Int)) ≠ some ((1 : Int), (0 : Int)) := by
  constructor
  · rfl
  · decide

/-- C3 amended: a retarget tick does not reuse the current job's id — it
stores the updated template (same fields as the latest block except `target`
and `timestamp`) under both the old current id and a fresh id
`nextMiningRequestId`, broadcasts the fresh id, and advances
`nextMiningRequestId` by one. -/
theorem recalculateTarget_fresh_id (newTargetValue : Nat) (newTime : Int)
    (p : MiningPool) (latest : Header)
    (hfind : findEntry p.miningRequestBlocks (p.nextMiningRequestId - 1) = some latest) :
    let updated : Header := { latest with target := newTargetValue, timestamp := newTime }
    let blocks1 := setEntry p.miningRequestBlocks (p.nextMiningRequestId - 1) updated
    recalculateTarget newTargetValue newTime p = some
      ({ p with
          nextMiningRequestId := p.nextMiningRequestId + 1
          miningRequestBlocks := setEntry blocks1 p.nextMiningRequestId updated },
        p.nextMiningRequestId) ∧
    findEntry (setEntry blocks1 p.nextMiningRequestId updated)
        p.nextMiningRequestId = some updated ∧
    updated.graffiti = latest.graffiti ∧
    updated.randomness = latest.randomness ∧
    updated.rest = latest.rest := by
  intro updated blocks1
  refine ⟨?_, findEntry_setEntry_self .., rfl, rfl, rfl⟩
  unfold recalculateTarget
  rw [hfind]
  rfl

/-- Witness for C3's amended theorem at `demoRetargetPool`. -/
theorem recalculateTarget_fresh_id_witness :
    let latest : Header :=
      { graffiti := "00", randomness := 0, target := 50, timestamp := 7, rest := 11 }
    let updated : Header := { latest with target := 42, timestamp := 100 }
    let blocks1 := setEntry demoRetargetPool.miningRequestBlocks
      (demoRetargetPool.nextMiningRequestId - 1) updated
    recalculateTarget 42 100 demoRetargetPool = some
      ({ demoRetargetPool with
          nextMiningRequestId := demoRetargetPool.nextMiningRequestId + 1
          miningRequestBlocks :=
            setEntry blocks1 demoRetargetPool.nextMiningRequestId updated },
        demoRetargetPool.nextMiningRequestId) ∧
    findEntry (setEntry blocks1 demoRetargetPool.nextMiningRequestId updated)
        demoRetargetPool.nextMiningRequestId = some updated ∧
    updated.graffiti = latest.graffiti ∧
    updated.randomness = latest.randomness ∧
    updated.rest = latest.rest := by
  intro latest updated blocks1
  exact recalculateTarget_fresh_id 42 100 demoRetargetPool latest rfl

/-! ## Claim C4: pool target value and first share -/

/-- C4 counterexample: with the real pool target `floor(2^256 / 3,700,000)`
(bytes `00 00 04 88 cd 4e …`), the hash `0x0487FFFF * 256^26` (bytes
`00 00 04 87 ff ff 00…00`) is numerically below the target, yet the code's
Buffer comparison does not place it below, so this submission for the
current job records no share — refuting "a submission … whose header hash is
numerically below this target records one share". -/
theorem poolTarget_comparison_counterexample :
    let tmpl : Header :=
      { graffiti := "00", randomness := 0, target := 3, timestamp := 7, rest := 11 }
    let out := submitWork (fun _ => 76021759 * 256 ^ 26) 100
      (distributeNewBlock poolInit tmpl).1 0 2 "ab"
    76021759 * 256 ^ 26 < poolInit.target ∧
    out.shareSubmitted = false ∧
    graffitiShareCount out.pool.shares "ab" = 0 := by
  decide

/-- C4 amended: the pool difficulty configured in the constructor is
3,700,000, the pool target is `floor(2^256 / 3,700,000)` and its 32-byte
big-endian serialization represents exactly that value; and a submission for
the first distributed job (mining request id 0) whose header-hash buffer
compares below the pool-target buffer under the code's comparison (JS Buffer
`<`, the UTF-8-decoded string order — numerically below alone is not enough)
records one share, leaving the submitting graffiti's share count at 1. -/
theorem poolInit_target_and_first_share (hashFn : Header → Nat) (now : Int)
    (tmpl : Header) (graffiti : String) (randomness : Int)
    (hhash : hashBelowTarget
      (hashFn { tmpl with graffiti := graffiti, randomness := randomness })
      poolInit.target = true) :
    poolInit.difficulty = 3700000 ∧
    poolInit.target = 2 ^ 256 / 3700000 ∧
    (toBytesBE poolInit.target 32).length = 32 ∧
    fromBytesBE (toBytesBE poolInit.target 32) = 2 ^ 256 / 3700000 ∧
    ((submitWork hashFn now (distributeNewBlock poolInit tmpl).1
        0 randomness graffiti).shareSubmitted = true ∧
      graffitiShareCount
        (submitWork hashFn now (distributeNewBlock poolInit tmpl).1
          0 randomness graffiti).pool.shares graffiti = 1) := by
  have htv : poolInit.target = 2 ^ 256 / 3700000 := by norm_num [poolInit]
  have hlt : 2 ^ 256 / 3700000 < 256 ^ 32 := by
    have h1 : (256 : Nat) ^ 32 = 2 ^ 256 := by norm_num
    rw [h1]
    exact Nat.div_lt_self (by positivity) (by norm_num)
  refine ⟨rfl, htv, toBytesBE_length poolInit.target 32, ?_, ?_⟩
  · rw [htv]
    exact fromBytesBE_toBytesBE _ _ hlt
  · have hT : (distributeNewBlock poolInit tmpl).1.target = poolInit.target := rfl
    rw [submitWork_fresh_eq hashFn now (distributeNewBlock poolInit tmpl).1
      0 randomness graffiti tmpl rfl rfl]
    simp only [hT]
    have hcond : hashBelowTarget
        (hashFn { tmpl with graffiti := graffiti, randomness := randomness })
        poolInit.target = true := hhash
    constructor
    · simpa using hcond
    · rw [if_pos hcond]
      simp [graffitiShareCount, submitShare, poolInit, distributeNewBlock, setEntry]

/-- Witness for C4's amended theorem: an all-zero-bytes hash compares below
the pool-target buffer (both decode to ASCII up to the target's first
non-ASCII byte; the hash's byte 2 is `00` against the target's `04`); the
scenario evaluates with share count 1. -/
theorem poolInit_target_and_first_share_witness :
    let tmpl : Header :=
      { graffiti := "00", randomness := 0, target := 3, timestamp := 7, rest := 11 }
    let hashFn : Header → Nat := fun _ => 0
    poolInit.difficulty = 3700000 ∧
    poolInit.target = 2 ^ 256 / 3700000 ∧
    (toBytesBE poolInit.target 32).length = 32 ∧
    fromBytesBE (toBytesBE poolInit.target 32) = 2 ^ 256 / 3700000 ∧
    ((submitWork hashFn 100 (distributeNewBlock poolInit tmpl).1
        0 2 "ab").shareSubmitted = true ∧
      graffitiShareCount
        (submitWork hashFn 100 (distributeNewBlock poolInit tmpl).1
          0 2 "ab").pool.shares "ab" = 1) := by
  intro tmpl hashFn
  exact poolInit_target_and_first_share hashFn 100 tmpl "ab" 2 (by decide)

/-! ## Claim C5: submitWork and the stored templates -/

/-- C6 (code-bug evidence). The source's `stop()` is only `socket.end()`: it
neither resets `started` nor clears `connectTimeout`. Concretely: start the
session, fail one connect attempt (a retry timer is now pending), call
`stop()` — `started` is still true and the timer is still pending; when the
timer fires, `startConnecting` opens a new socket connect attempt before any
check, and if that attempt succeeds the session even transitions to
connected. The `if (!this.started) return` guard never fires because nothing
ever sets `started` back to false. -/
theorem stop_leaves_reconnect_live :
    stoppedMidReconnect.started = true ∧
    stoppedMidReconnect.pendingReconnect = true ∧
    (reconnectTimerFire stoppedMidReconnect).2 = [CEvent.socketConnectAttempt] ∧
    (startConnectingResume (reconnectTimerFire stoppedMidReconnect).1 true).1.connected =
      true := by
  decide

/-! ## Claim C7: the request-correlation map -/

/-- C7 counterexample: a connected session sends one `mining.submit`
(correlation entry `(0, "mining.submit")`); the connection then resets
(`onDisconnect`) — the map is NOT cleared: the entry from the previous
connection is still there. -/
theorem requestsSent_not_cleared_counterexample :
    let c0 : StratumClient := { mkClient "ab" with connected := true }
    let c1 := (submit c0 1 2 "ab").1
    c1.requestsSent = [(0, "mining.submit")] ∧
    (onDisconnect c1).1.requestsSent = [(0, "mining.submit")] ∧
    [((0 : Int), "mining.submit")] ≠ ([] : List (Int × String)) := by
  decide

/-- C7 amended: a correlation entry is inserted when a request is sent while
connected, and is then never removed — processing inbound data (response
arrival included) leaves `requestsSent` unchanged, and a connection reset
(`onDisconnect`) leaves it unchanged too, so entries from the previous
connection survive a reconnect. -/
theorem requestsSent_persistence (c : StratumClient) (lines : List WireLine)
    (id : Int) (method : String) (hc : c.connected = true) :
    (send c id method).1.requestsSent = setEntry c.requestsSent id method ∧
    (onDataLines c lines).1.requestsSent = c.requestsSent ∧
    (onDisconnect c).1.requestsSent = c.requestsSent := by
  refine ⟨?_, onDataLines_requestsSent lines c, rfl⟩
  simp [send, hc]

/-- Witness for C7's amended theorem: concrete connected session, a chunk
holding the correlated subscribe response: the entry survives both the
response and a reset. -/
theorem requestsSent_persistence_witness :
    let c : StratumClient :=
      { started := true, connected := true, connectWarned := false,
        pendingReconnect := false, socketEnded := false,
        requestsSent := [(0, "mining.subscribe")], nextMessageId := 1,
        graffiti := "ab" }
    let response : StratumMsg :=
      { method := none, id := some 0, result := "cd", params0 := "" }
    (send c 1 "mining.submit").1.requestsSent =
      setEntry c.requestsSent 1 "mining.submit" ∧
    (onDataLines c [.msg response]).1.requestsSent = c.requestsSent ∧
    (onDisconnect c).1.requestsSent = c.requestsSent := by
  intro c response
  exact requestsSent_persistence c [.msg response] 1 "mining.submit" (by decide)

/-! ## Claim C8: per-message error containment in onData -/

/-- C8 counterexample: a chunk whose first line is a response with an
unmatched id and whose second line is a valid `mining.wait_for_work`
notification: the unmatched response executes `return`, so the second message
is never processed (alone, it would produce `minerWaitForWork`); and a chunk
starting with a malformed line produces no log at all — the `JSON.parse`
exception escapes the handler. -/
theorem onData_abandons_chunk_counterexample :
    let c := mkClient "ab"
    let badResp : StratumMsg := { method := none, id := some 99, result := "", params0 := "" }
    let waitMsg : StratumMsg :=
      { method := some "mining.wait_for_work", id := none, result := "", params0 := "" }
    onDataLines c [.msg badResp, .msg waitMsg] = (c, [.logUnrecognizedResponseId], none) ∧
    onDataLines c [.msg waitMsg] = (c, [.minerWaitForWork], none) ∧
    onDataLines c [.malformed, .msg waitMsg] = (c, [], some .jsonParse) := by
  decide

/-- C8 amended: an unrecognized method and a malformed envelope (neither
`method` nor `id`) are logged and skipped, with the rest of the chunk
processed exactly as it would be on its own and the state untouched; but a
response whose id matches no outstanding request is logged and then aborts
the rest of the chunk (`return`), and a `JSON.parse` failure raises out of
the handler unlogged, abandoning the rest of the chunk. -/
theorem onData_error_handling (c : StratumClient) (m1 m2 m3 : StratumMsg)
    (mth : String) (i : Int) (rest : List WireLine)
    (h1 : m1.method = some mth)
    (h2 : mth ≠ "mining.set_target") (h3 : mth ≠ "mining.notify")
    (h4 : mth ≠ "mining.wait_for_work")
    (h5 : m2.method = none) (h6 : m2.id = none)
    (h7 : m3.method = none) (h8 : m3.id = some i)
    (h9 : findEntry c.requestsSent i = none) :
    onDataLines c (.msg m1 :: rest) =
      ((onDataLines c rest).1,
        .logUnrecognizedMethod mth :: (onDataLines c rest).2.1,
        (onDataLines c rest).2.2) ∧
    onDataLines c (.msg m2 :: rest) =
      ((onDataLines c rest).1,
        .logUnrecognizedMessage :: (onDataLines c rest).2.1,
        (onDataLines c rest).2.2) ∧
    onDataLines c (.msg m3 :: rest) = (c, [.logUnrecognizedResponseId], none) ∧
    onDataLines c (.malformed :: rest) = (c, [], some .jsonParse) := by
  refine ⟨?_, ?_, ?_, rfl⟩
  · simp [onDataLines, h1, h2, h3, h4]
  · simp [onDataLines, h5, h6]
  · simp [onDataLines, h7, h8, h9]

/-- Witness for C8's amended theorem at concrete messages. -/
theorem onData_error_handling_witness :
    let c := mkClient "ab"
    let m1 : StratumMsg := { method := some "mining.foo", id := none, result := "", params0 := "" }
    let m2 : StratumMsg := { method := none, id := none, result := "", params0 := "" }
    let m3 : StratumMsg := { method := none, id := some 99, result := "", params0 := "" }
    let waitMsg : StratumMsg :=
      { method := some "mining.wait_for_work", id := none, result := "", params0 := "" }
    let rest : List WireLine := [.msg waitMsg]
    onDataLines c (.msg m1 :: rest) =
      ((onDataLines c rest).1,
        .logUnrecognizedMethod "mining.foo" :: (onDataLines c rest).2.1,
        (onDataLines c rest).2.2) ∧
    onDataLines c (.msg m2 :: rest) =
      ((onDataLines c rest).1,
        .logUnrecognizedMessage :: (onDataLines c rest).2.1,
        (onDataLines c rest).2.2) ∧
    onDataLines c (.msg m3 :: rest) = (c, [.logUnrecognizedResponseId], none) ∧
    onDataLines c (.malformed :: rest) = (c, [], some .jsonParse) := by
  intro c m1 m2 m3 waitMsg rest
  exact onData_error_handling c m1 m2 m3 "mining.foo" 99 rest rfl (by decide)
    (by decide) (by decide) rfl rfl rfl rfl (by decide)

/-! ## Claim C9: one warning per failure streak, fixed retry delay -/

/-- C9. For both connect loops (worker session → pool, orchestrator → node):
`N ≥ 1` consecutive failures followed by one success emits exactly one
failure warning, schedules exactly `N` retries, all with delay 5000 ms, makes
exactly one connected transition, and clears the warned flag so a later
streak warns again. -/
theorem connect_loop_warns_once (N : Nat) (c : StratumClient) (p : MiningPool)
    (hN : 1 ≤ N)
    (hcs : c.started = true) (hcw : c.connectWarned = false)
    (hps : p.started = true) (hpw : p.connectWarned = false) :
    ((runConnectLoop c (List.replicate N false ++ [true])).2.count .logConnectFailed = 1 ∧
      (runConnectLoop c (List.replicate N false ++ [true])).2.count .connectedTransition = 1 ∧
      (runConnectLoop c (List.replicate N false ++ [true])).2.count (.scheduleRetry 5000) = N ∧
      ((runConnectLoop c (List.replicate N false ++ [true])).2.filter isRetry).length = N ∧
      (runConnectLoop c (List.replicate N false ++ [true])).1.connectWarned = false) ∧
    ((runRpcConnectLoop p (List.replicate N false ++ [true])).2.count .logConnectFailed = 1 ∧
      (runRpcConnectLoop p (List.replicate N false ++ [true])).2.count .connectedTransition = 1 ∧
      (runRpcConnectLoop p (List.replicate N false ++ [true])).2.count (.scheduleRetry 5000) = N ∧
      ((runRpcConnectLoop p (List.replicate N false ++ [true])).2.filter isRetry).length = N ∧
      (runRpcConnectLoop p (List.replicate N false ++ [true])).1.connectWarned = false) := by
  obtain ⟨M, rfl⟩ : ∃ M, N = M + 1 := ⟨N - 1, (Nat.succ_pred_eq_of_pos hN).symm⟩
  constructor
  · have hstep : runConnectLoop c (List.replicate (M + 1) false ++ [true]) =
        ((runConnectLoop { c with connectWarned := true, pendingReconnect := false }
            (List.replicate M false ++ [true])).1,
          CEvent.logConnectFailed :: CEvent.scheduleRetry 5000 ::
            CEvent.socketConnectAttempt ::
            (runConnectLoop { c with connectWarned := true, pendingReconnect := false }
              (List.replicate M false ++ [true])).2) := by
      simp [List.replicate_succ, runConnectLoop, startConnectingResume,
        reconnectTimerFire, hcs, hcw]
    obtain ⟨h1, h2, h3, h4, h5⟩ := runConnectLoop_warned M
      { c with connectWarned := true, pendingReconnect := false }
      (by simp [hcs]) (by simp)
    rw [hstep]
    refine ⟨?_, ?_, ?_, ?_, h5⟩ <;>
      simp [List.count_cons, isRetry, h1, h2, h3, h4]
  · have hstep : runRpcConnectLoop p (List.replicate (M + 1) false ++ [true]) =
        ((runRpcConnectLoop { p with connectWarned := true }
            (List.replicate M false ++ [true])).1,
          CEvent.logConnectFailed :: CEvent.scheduleRetry 5000 ::
            CEvent.socketConnectAttempt ::
            (runRpcConnectLoop { p with connectWarned := true }
              (List.replicate M false ++ [true])).2) := by
      simp [List.replicate_succ, runRpcConnectLoop, startConnectingRpcResume, hps, hpw]
    obtain ⟨h1, h2, h3, h4, h5⟩ := runRpcConnectLoop_warned M
      { p with connectWarned := true } (by simp [hps]) (by simp)
    rw [hstep]
    refine ⟨?_, ?_, ?_, ?_, h5⟩ <;>
      simp [List.count_cons, isRetry, h1, h2, h3, h4]

/-- Witness for C9 at `N = 2` on concrete started client and pool states. -/
theorem connect_loop_warns_once_witness :
    let c : StratumClient := { mkClient "ab" with started := true }
    let p : MiningPool := { poolInit with started := true }
    ((runConnectLoop c (List.replicate 2 false ++ [true])).2.count .logConnectFailed = 1 ∧
      (runConnectLoop c (List.replicate 2 false ++ [true])).2.count .connectedTransition = 1 ∧
      (runConnectLoop c (List.replicate 2 false ++ [true])).2.count (.scheduleRetry 5000) = 2 ∧
      ((runConnectLoop c (List.replicate 2 false ++ [true])).2.filter isRetry).length = 2 ∧
      (runConnectLoop c (List.replicate 2 false ++ [true])).1.connectWarned = false) ∧
    ((runRpcConnectLoop p (List.replicate 2 false ++ [true])).2.count .logConnectFailed = 1 ∧
      (runRpcConnectLoop p (List.replicate 2 false ++ [true])).2.count .connectedTransition = 1 ∧
      (runRpcConnectLoop p (List.replicate 2 false ++ [true])).2.count (.scheduleRetry 5000) = 2 ∧
      ((runRpcConnectLoop p (List.replicate 2 false ++ [true])).2.filter isRetry).length = 2 ∧
      (runRpcConnectLoop p (List.replicate 2 false ++ [true])).1.connectWarned = false) := by
  intro c p
  exact connect_loop_warns_once 2 c p (by decide) rfl rfl rfl rfl

/-! ## Claim C10: the hashrate formula -/

/-- C10. With the configured difficulty 3,700,000: the per-miner hashrate is
the graffiti's share count inside the 60-second lookback window times
3,700,000, divided (floor) by 60; the aggregate hashrate is the same formula
over all shares; and 5 in-window shares for a graffiti yield
`5 * 3,700,000 / 60`. -/
theorem hashrate_formula (p : MiningPool) (now : Int) (graffiti : String)
    (hd : p.difficulty = 3700000) :
    graffitiHashrate p now graffiti =
      graffitiShareCountSince p.shares graffiti (now - 60000) * 3700000 / 60 ∧
    hashrate p now =
      totalShareCountSince p.shares (now - 60000) * 3700000 / 60 ∧
    (graffitiShareCountSince p.shares graffiti (now - 60000) = 5 →
      graffitiHashrate p now graffiti = 5 * 3700000 / 60) := by
  refine ⟨?_, ?_, ?_⟩
  · simp [graffitiHashrate, hd, hashrateCutoffMilliseconds, hashrateCutoffSeconds]
  · simp [hashrate, hd, hashrateCutoffMilliseconds, hashrateCutoffSeconds]
  · intro h5
    simp [graffitiHashrate, hd, hashrateCutoffMilliseconds, hashrateCutoffSeconds, h5]

/-- Witness for C10: six shares, five of them for graffiti `"aa"` inside the
window (cutoff `100000 - 60000 = 40000`), one `"aa"` share outside it and one
`"bb"` share inside it. -/
theorem hashrate_formula_witness :
    let mkShare : Int → String → Share :=
      fun t g => { timestamp := t, graffiti := g, miningRequestId := 0, randomness := 0 }
    let p : MiningPool :=
      { started := true, connectWarned := false, nextMiningRequestId := 1,
        miningRequestBlocks := [], difficulty := 1850000 * 2, target := 10,
        shares := [mkShare 30000 "aa", mkShare 50000 "aa", mkShare 60000 "aa",
                   mkShare 70000 "aa", mkShare 80000 "aa", mkShare 90000 "aa",
                   mkShare 95000 "bb"] }
    graffitiHashrate p 100000 "aa" =
      graffitiShareCountSince p.shares "aa" (100000 - 60000) * 3700000 / 60 ∧
    hashrate p 100000 =
      totalShareCountSince p.shares (100000 - 60000) * 3700000 / 60 ∧
    (graffitiShareCountSince p.shares "aa" (100000 - 60000) = 5 →
      graffitiHashrate p 100000 "aa" = 5 * 3700000 / 60) := by
  intro mkShare p
  exact hashrate_formula p 100000 "aa" (by decide)

end IronfishPool
